import Mathlib

/-!
Shallow embedding of the auto partitioning module
(`pyanaconda/modules/storage/partitioning/automatic/automatic_module.py`).

The storage engine (blivet) is external to the module: device objects are
modelled as a tree structure carrying exactly the attributes the module reads
(`name`, `protected`, `size`, `is_disk`, `partitioned`, `format.supported`,
`format.logical_partitions`, `isinstance(_, PartitionDevice)`, `is_extended`,
`children`), and the engine's mutating operations (`recursive_remove`,
`resize_device`) together with the device method `align_target_size` are
recorded as an explicit trace of engine calls.  Since every mutation of the
device graph made by the module goes through one of these engine calls, an
empty trace means the device graph is unchanged.

Module state (the `enabled` flag and the current `PartitioningRequest`) is
explicit, and the `Signal.emit()` notifications of the setters are recorded
as an explicit event trace.
-/

/-- Errors raised by the module: `UnknownDeviceError` when a device name does
not resolve, `ProtectedDeviceError` when an operation targets a protected
device directly. -/
inductive StorageError : Type where
  | unknownDeviceError (name : String) : StorageError
  | protectedDeviceError (name : String) : StorageError
deriving DecidableEq, Repr

/-- A device node of the external storage engine's device graph.  The field
`isProtected` embeds the source attribute `protected` (a Lean keyword);
`format_supported` and `format_logical_partitions` embed `format.supported`
and the truthiness of `format.logical_partitions`; `is_partition_device`
embeds `isinstance(d, PartitionDevice)`.  `size` is in bytes. -/
inductive Device : Type where
  | mk (name : String) (isProtected : Bool) (size : Nat)
       (is_disk : Bool) (partitioned : Bool)
       (format_supported : Bool) (format_logical_partitions : Bool)
       (is_partition_device : Bool) (is_extended : Bool)
       (children : List Device) : Device

/-- The device's name (its unique key in the graph). -/
def Device.name : Device → String
  | .mk n _ _ _ _ _ _ _ _ _ => n

/-- The device's `protected` attribute. -/
def Device.isProtected : Device → Bool
  | .mk _ p _ _ _ _ _ _ _ _ => p

/-- The device's current size in bytes. -/
def Device.size : Device → Nat
  | .mk _ _ s _ _ _ _ _ _ _ => s

/-- The device's `is_disk` attribute. -/
def Device.is_disk : Device → Bool
  | .mk _ _ _ d _ _ _ _ _ _ => d

/-- The device's `partitioned` attribute. -/
def Device.partitioned : Device → Bool
  | .mk _ _ _ _ p _ _ _ _ _ => p

/-- Whether the device's format is supported (`format.supported`). -/
def Device.format_supported : Device → Bool
  | .mk _ _ _ _ _ f _ _ _ _ => f

/-- Whether the device's format holds logical partitions (truthiness of
`format.logical_partitions`). -/
def Device.format_logical_partitions : Device → Bool
  | .mk _ _ _ _ _ _ l _ _ _ => l

/-- Whether the device is a `PartitionDevice` instance. -/
def Device.is_partition_device : Device → Bool
  | .mk _ _ _ _ _ _ _ pd _ _ => pd

/-- The device's `is_extended` attribute. -/
def Device.is_extended : Device → Bool
  | .mk _ _ _ _ _ _ _ _ e _ => e

/-- The device's direct children in the device graph. -/
def Device.children : Device → List Device
  | .mk _ _ _ _ _ _ _ _ _ cs => cs

/-- Engine operations the module may request: the cascading
`storage.recursive_remove(device)`, the device method
`device.align_target_size(size)` and `storage.resize_device(device, size)`.
These are the only ways the module touches the device graph. -/
inductive EngineCall : Type where
  | recursiveRemove (device : Device) : EngineCall
  | alignTargetSize (device : Device) (size : Nat) : EngineCall
  | resizeDevice (device : Device) (size : Nat) : EngineCall

/-- Lookup by name over the engine's device tree
(`storage.devicetree.get_device_by_name(name, hidden=True)`); the devicetree
is modelled as the list of its devices, names being unique keys. -/
def get_device_by_name (tree : List Device) (name : String) : Option Device :=
  tree.find? (fun d => d.name == name)

/-- Embeds `AutoPartitioningModule.remove_device`.  Returns the trace of
engine calls made, and either unit or the error raised. -/
def remove_device (tree : List Device) (device_name : String) :
    List EngineCall × Except StorageError Unit :=
  match get_device_by_name tree device_name with
  | none => ([], .error (.unknownDeviceError device_name))
  | some device =>
    if device.isProtected then
      ([], .error (.protectedDeviceError device_name))
    else if device.children.any (fun d => d.isProtected) then
      -- Only remove unprotected children if any protected.
      ((device.children.filter (fun d => !d.isProtected)).map EngineCall.recursiveRemove,
        .ok ())
    else
      -- No protected children, remove the device.
      ([EngineCall.recursiveRemove device], .ok ())

/-- Embeds `AutoPartitioningModule.shrink_device`.  The engine-provided
device method `align_target_size` is a parameter, since its computation is
external to the module; its use is also recorded in the call trace. -/
def shrink_device (align_target_size : Device → Nat → Nat)
    (tree : List Device) (device_name : String) (size : Nat) :
    List EngineCall × Except StorageError Unit :=
  match get_device_by_name tree device_name with
  | none => ([], .error (.unknownDeviceError device_name))
  | some device =>
    if device.isProtected then
      ([], .error (.protectedDeviceError device_name))
    else if device.size ≤ size then
      -- The device size is small enough.
      ([], .ok ())
    else
      -- Resize the device.
      ([EngineCall.alignTargetSize device size,
        EngineCall.resizeDevice device (align_target_size device size)], .ok ())

/-- Embeds the helper `AutoPartitioningModule._is_device_partitioned`. -/
def is_device_partitioned_check (device : Device) : Bool :=
  device.is_disk && device.partitioned && device.format_supported

/-- Embeds `AutoPartitioningModule.get_device_partitions`. -/
def get_device_partitions (tree : List Device) (device_name : String) :
    Except StorageError (List String) :=
  match get_device_by_name tree device_name with
  | none => .error (.unknownDeviceError device_name)
  | some device =>
    if !is_device_partitioned_check device then
      .ok []
    else
      .ok ((device.children.filter (fun d =>
          d.is_partition_device && !(d.is_extended && d.format_logical_partitions))).map
        Device.name)

/-- Modelled from the spec: the system-wide default partitioning scheme
(`DEFAULT_AUTOPART_TYPE` from `pyanaconda.core.constants`, which is not part
of this core); schemes form a fixed enumeration modelled as naturals, and the
concrete value of the default is immaterial to the module's behavior. -/
def DEFAULT_AUTOPART_TYPE : Nat := 2

/-- Modelled from the spec: the `PartitioningRequest` value object
(`pyanaconda.modules.common.structures.partitioning`, not part of this core),
with the fields of the spec's data-model table; each field's type default is
the empty/zero value of its type, and `partitioning_scheme` defaults to the
system-wide default scheme. -/
structure PartitioningRequest : Type where
  partitioning_scheme : Nat
  file_system_type : String
  excluded_mount_points : List String
  encrypted : Bool
  passphrase : String
  cipher : String
  luks_version : String
  pbkdf : String
  pbkdf_memory : Int
  pbkdf_time : Int
  pbkdf_iterations : Int
  escrow_certificate : String
  backup_passphrase_enabled : Bool
deriving DecidableEq, Repr

/-- A fresh `PartitioningRequest()` with every field at its type default. -/
def PartitioningRequest.fresh : PartitioningRequest :=
  { partitioning_scheme := DEFAULT_AUTOPART_TYPE
    file_system_type := ""
    excluded_mount_points := []
    encrypted := false
    passphrase := ""
    cipher := ""
    luks_version := ""
    pbkdf := ""
    pbkdf_memory := 0
    pbkdf_time := 0
    pbkdf_iterations := 0
    escrow_certificate := ""
    backup_passphrase_enabled := false }

/-- Modelled from the spec: the declarative-configuration (kickstart)
`autopart` section consumed by `process_kickstart` and produced by
`setup_kickstart` (the kickstart data structure itself is not part of this
core).  `type` is optional (`None` meaning "the default scheme"). -/
structure AutopartData : Type where
  autopart : Bool
  type : Option Nat
  fstype : String
  noboot : Bool
  nohome : Bool
  noswap : Bool
  encrypted : Bool
  passphrase : String
  cipher : String
  luks_version : String
  pbkdf : String
  pbkdf_memory : Int
  pbkdf_time : Int
  pbkdf_iterations : Int
  escrowcert : String
  backuppassphrase : Bool
deriving DecidableEq, Repr

/-- A fresh declarative configuration with every field absent/at default. -/
def AutopartData.fresh : AutopartData :=
  { autopart := false
    type := none
    fstype := ""
    noboot := false
    nohome := false
    noswap := false
    encrypted := false
    passphrase := ""
    cipher := ""
    luks_version := ""
    pbkdf := ""
    pbkdf_memory := 0
    pbkdf_time := 0
    pbkdf_iterations := 0
    escrowcert := ""
    backuppassphrase := false }

/-- The module's own state: the `enabled` flag and the current request. -/
structure ModuleState : Type where
  enabled : Bool
  request : PartitioningRequest
deriving DecidableEq, Repr

/-- The change notifications a module emits: `enabled_changed.emit()` and
`request_changed.emit()` carry no payload beyond which attribute changed. -/
inductive ModuleEvent : Type where
  | enabledChanged : ModuleEvent
  | requestChanged : ModuleEvent
deriving DecidableEq, Repr

/-- Embeds `AutoPartitioningModule.set_enabled`: store the value, then emit
`enabled_changed`. -/
def set_enabled (s : ModuleState) (enabled : Bool) : ModuleState × List ModuleEvent :=
  ({ s with enabled := enabled }, [ModuleEvent.enabledChanged])

/-- Embeds `AutoPartitioningModule.set_request`: store the request, then emit
`request_changed`. -/
def set_request (s : ModuleState) (request : PartitioningRequest) :
    ModuleState × List ModuleEvent :=
  ({ s with request := request }, [ModuleEvent.requestChanged])

/-- Embeds `AutoPartitioningModule.set_passphrase`: deep-copy the current
request, overwrite its passphrase, and set it via `set_request`. -/
def set_passphrase (s : ModuleState) (passphrase : String) :
    ModuleState × List ModuleEvent :=
  set_request s { s.request with passphrase := passphrase }

/-- The request built by `process_kickstart` from the kickstart data: a fresh
request populated field by field, each guarded exactly as in the source. -/
def request_from_kickstart (a : AutopartData) : PartitioningRequest :=
  let r0 := PartitioningRequest.fresh
  let r1 := match a.type with
    | some t => { r0 with partitioning_scheme := t }
    | none => r0
  let r2 := if a.fstype = "" then r1 else { r1 with file_system_type := a.fstype }
  let r3 := if a.noboot then
    { r2 with excluded_mount_points := r2.excluded_mount_points ++ ["/boot"] } else r2
  let r4 := if a.nohome then
    { r3 with excluded_mount_points := r3.excluded_mount_points ++ ["/home"] } else r3
  let r5 := if a.noswap then
    { r4 with excluded_mount_points := r4.excluded_mount_points ++ ["swap"] } else r4
  if a.encrypted then
    { r5 with
      encrypted := true
      passphrase := a.passphrase
      cipher := a.cipher
      luks_version := a.luks_version
      pbkdf := a.pbkdf
      pbkdf_memory := a.pbkdf_memory
      pbkdf_time := a.pbkdf_time
      pbkdf_iterations := a.pbkdf_iterations
      escrow_certificate := a.escrowcert
      backup_passphrase_enabled := a.backuppassphrase }
  else r5

/-- Embeds `AutoPartitioningModule.process_kickstart`: set the enabled flag
from the data, then set a freshly populated request. -/
def process_kickstart (s : ModuleState) (a : AutopartData) :
    ModuleState × List ModuleEvent :=
  let (s1, ev1) := set_enabled s a.autopart
  let (s2, ev2) := set_request s1 (request_from_kickstart a)
  (s2, ev1 ++ ev2)

/-- Embeds `AutoPartitioningModule.setup_kickstart`: write the module state
into the kickstart data; `type` is only written when the scheme differs from
the default, and the passphrase is never generated. -/
def setup_kickstart (s : ModuleState) (a : AutopartData) : AutopartData :=
  let d1 := { a with
    autopart := s.enabled
    fstype := s.request.file_system_type }
  let d2 := if s.request.partitioning_scheme ≠ DEFAULT_AUTOPART_TYPE then
    { d1 with type := some s.request.partitioning_scheme } else d1
  { d2 with
    nohome := s.request.excluded_mount_points.contains "/home"
    noboot := s.request.excluded_mount_points.contains "/boot"
    noswap := s.request.excluded_mount_points.contains "swap"
    encrypted := s.request.encrypted
    -- Don't generate sensitive information.
    passphrase := ""
    cipher := s.request.cipher
    luks_version := s.request.luks_version
    pbkdf := s.request.pbkdf
    pbkdf_memory := s.request.pbkdf_memory
    pbkdf_time := s.request.pbkdf_time
    pbkdf_iterations := s.request.pbkdf_iterations
    escrowcert := s.request.escrow_certificate
    backuppassphrase := s.request.backup_passphrase_enabled }

/-- A fresh module state, as after `__init__`: disabled, fresh request. -/
def ModuleState.fresh : ModuleState :=
  { enabled := false, request := PartitioningRequest.fresh }

/-- Exporting the module state to a fresh declarative configuration. -/
def export_to_config (s : ModuleState) : AutopartData :=
  setup_kickstart s AutopartData.fresh

/-- Importing a declarative configuration into a fresh module state. -/
def import_from_config (a : AutopartData) : ModuleState :=
  (process_kickstart ModuleState.fresh a).1

theorem Device.ne_of_mem_children {c d : Device} (h : c ∈ d.children) : c ≠ d := by
  have hlt : sizeOf c < sizeOf d := by
    cases d with
    | mk n p s dk pt fs fl pd ie cs =>
      simp only [Device.children] at h
      have h1 := List.sizeOf_lt_of_mem h
      simp only [Device.mk.sizeOf_spec]
      omega
  intro he
  rw [he] at hlt
  exact lt_irrefl _ hlt

/-- A protected grandchild, sitting below an unprotected child: it is never
inspected by `remove_device`. -/
def devGrandchild : Device :=
  Device.mk "vdb2a" true 10 false false false false true false []

/-- An unprotected child of the example device, with a protected grandchild. -/
def devChildUnprotected : Device :=
  Device.mk "vdb2" false 20 false false false false true false [devGrandchild]

/-- A protected child of the example device. -/
def devChildProtected : Device :=
  Device.mk "vdb1" true 30 false false false false true false []

/-- An unprotected example device with one protected and one unprotected
child. -/
def devParent : Device :=
  Device.mk "vdb" false 100 true true true false false false
    [devChildProtected, devChildUnprotected]

/-- A protected example device. -/
def devProtectedDisk : Device :=
  Device.mk "vda" true 100 true true true false false false []

/-- An unprotected, resizable example device of 100 bytes. -/
def devPlain : Device :=
  Device.mk "vdc" false 100 false false false false true false []

/-- The example device tree used by the witnesses. -/
def exampleTree : List Device := [devParent, devProtectedDisk, devPlain]

/-- An alignment function used by the witnesses: round down to a multiple of
ten bytes. -/
def alignDown10 (_ : Device) (size : Nat) : Nat := size - size % 10

/-- C1: for every device that is itself unprotected but has at least one
protected child, `remove_device` issues exactly one cascading engine remove
per unprotected direct child and returns without error; every engine call
targets an unprotected direct child, so the device itself and its protected
children are untouched, and only direct children are inspected for
protection (the result is fixed by the children's own flags, whatever their
subtrees hold). -/
theorem remove_device_spares_protected_children
    (tree : List Device) (device_name : String) (device : Device)
    (hres : get_device_by_name tree device_name = some device)
    (hprot : device.isProtected = false)
    (hchild : device.children.any (fun d => d.isProtected) = true) :
    remove_device tree device_name =
      ((device.children.filter (fun d => !d.isProtected)).map EngineCall.recursiveRemove,
        Except.ok ()) ∧
    ∀ c : Device, EngineCall.recursiveRemove c ∈ (remove_device tree device_name).1 →
      c ∈ device.children ∧ c.isProtected = false ∧ c ≠ device := by
  have hrw : remove_device tree device_name =
      ((device.children.filter (fun d => !d.isProtected)).map EngineCall.recursiveRemove,
        Except.ok ()) := by
    unfold remove_device
    rw [hres]
    simp [hprot, hchild]
  refine ⟨hrw, fun c hc => ?_⟩
  rw [hrw] at hc
  simp only [List.mem_map] at hc
  obtain ⟨a, ha, hac⟩ := hc
  injection hac with h
  subst h
  rw [List.mem_filter] at ha
  refine ⟨ha.1, ?_, Device.ne_of_mem_children ha.1⟩
  have := ha.2
  simpa using this

/-- C1 witness: on the example tree, removing `vdb` (unprotected, one
protected child `vdb1`, one unprotected child `vdb2` that itself has a
protected grandchild) issues exactly the cascading removal of `vdb2`. -/
theorem remove_device_spares_protected_children_witness :
    get_device_by_name exampleTree "vdb" = some devParent ∧
    devParent.isProtected = false ∧
    devParent.children.any (fun d => d.isProtected) = true ∧
    remove_device exampleTree "vdb" =
      ([EngineCall.recursiveRemove devChildUnprotected], Except.ok ()) :=
  ⟨rfl, rfl, rfl,
    ((remove_device_spares_protected_children exampleTree "vdb" devParent
      rfl rfl rfl).1).trans rfl⟩

/-- C2: for every device that resolves and is protected, `remove_device`
raises `ProtectedDeviceError` and performs no engine call at all, so the
device graph is unchanged. -/
theorem remove_device_protected_error
    (tree : List Device) (device_name : String) (device : Device)
    (hres : get_device_by_name tree device_name = some device)
    (hprot : device.isProtected = true) :
    remove_device tree device_name =
      ([], Except.error (StorageError.protectedDeviceError device_name)) := by
  unfold remove_device
  rw [hres]
  simp [hprot]

/-- C2 witness: removing the protected example disk `vda` raises
`ProtectedDeviceError` with an empty engine-call trace. -/
theorem remove_device_protected_error_witness :
    get_device_by_name exampleTree "vda" = some devProtectedDisk ∧
    devProtectedDisk.isProtected = true ∧
    remove_device exampleTree "vda" =
      ([], Except.error (StorageError.protectedDeviceError "vda")) :=
  ⟨rfl, rfl, remove_device_protected_error exampleTree "vda" devProtectedDisk rfl rfl⟩

/-- C4: for every resolvable unprotected device whose current size is at most
the requested target size, `shrink_device` makes no engine call (neither
align nor resize) and returns normally, leaving the device graph unchanged. -/
theorem shrink_device_noop_when_small_enough
    (align_target_size : Device → Nat → Nat)
    (tree : List Device) (device_name : String) (device : Device) (size : Nat)
    (hres : get_device_by_name tree device_name = some device)
    (hprot : device.isProtected = false)
    (hsize : device.size ≤ size) :
    shrink_device align_target_size tree device_name size = ([], Except.ok ()) := by
  unfold shrink_device
  rw [hres]
  simp [hprot, hsize]

/-- C4 witness: shrinking the 100-byte unprotected device `vdc` to 100 bytes
returns normally with an empty engine-call trace. -/
theorem shrink_device_noop_when_small_enough_witness :
    get_device_by_name exampleTree "vdc" = some devPlain ∧
    devPlain.isProtected = false ∧
    devPlain.size ≤ 100 ∧
    shrink_device alignDown10 exampleTree "vdc" 100 = ([], Except.ok ()) :=
  ⟨rfl, rfl, by decide,
    shrink_device_noop_when_small_enough alignDown10 exampleTree "vdc" devPlain 100
      rfl rfl (by decide)⟩

/-- C5: for every resolvable protected device and target smaller than its
current size, `shrink_device` raises `ProtectedDeviceError` with no engine
call made (in particular, before any alignment or resize), so the device
graph is unchanged. -/
theorem shrink_device_protected_error
    (align_target_size : Device → Nat → Nat)
    (tree : List Device) (device_name : String) (device : Device) (size : Nat)
    (hres : get_device_by_name tree device_name = some device)
    (hprot : device.isProtected = true)
    (hsize : size < device.size) :
    shrink_device align_target_size tree device_name size =
      ([], Except.error (StorageError.protectedDeviceError device_name)) := by
  unfold shrink_device
  rw [hres]
  simp [hprot]

/-- C5 witness: shrinking the protected 100-byte disk `vda` to 37 bytes
raises `ProtectedDeviceError` with an empty engine-call trace. -/
theorem shrink_device_protected_error_witness :
    get_device_by_name exampleTree "vda" = some devProtectedDisk ∧
    devProtectedDisk.isProtected = true ∧
    37 < devProtectedDisk.size ∧
    shrink_device alignDown10 exampleTree "vda" 37 =
      ([], Except.error (StorageError.protectedDeviceError "vda")) :=
  ⟨rfl, rfl, by decide,
    shrink_device_protected_error alignDown10 exampleTree "vda" devProtectedDisk 37
      rfl rfl (by decide)⟩

/-- C6: whenever `shrink_device` actually requests a resize (unprotected
device, current size greater than the target), the size passed to the
engine's resize call is exactly the device-aligned version of the target,
and the alignment computation happens before the resize in the call trace;
no other engine call is made. -/
theorem shrink_device_resizes_to_aligned_size
    (align_target_size : Device → Nat → Nat)
    (tree : List Device) (device_name : String) (device : Device) (size : Nat)
    (hres : get_device_by_name tree device_name = some device)
    (hprot : device.isProtected = false)
    (hsize : size < device.size) :
    shrink_device align_target_size tree device_name size =
      ([EngineCall.alignTargetSize device size,
        EngineCall.resizeDevice device (align_target_size device size)],
        Except.ok ()) := by
  unfold shrink_device
  rw [hres]
  simp [hprot, Nat.not_le.mpr hsize]

/-- C6 witness: shrinking the unprotected 100-byte device `vdc` to 37 bytes
aligns first and then resizes to the aligned 30 bytes. -/
theorem shrink_device_resizes_to_aligned_size_witness :
    get_device_by_name exampleTree "vdc" = some devPlain ∧
    devPlain.isProtected = false ∧
    37 < devPlain.size ∧
    shrink_device alignDown10 exampleTree "vdc" 37 =
      ([EngineCall.alignTargetSize devPlain 37,
        EngineCall.resizeDevice devPlain 30], Except.ok ()) :=
  ⟨rfl, rfl, by decide,
    (shrink_device_resizes_to_aligned_size alignDown10 exampleTree "vdc" devPlain 37
      rfl rfl (by decide)).trans rfl⟩

/-- The partitioned example disk `sda`: its children are the plain partition
`sda1` and the extended partition `sda2` holding logical partitions. -/
def devSda1 : Device :=
  Device.mk "sda1" false 40 false false true false true false []

/-- The extended partition `sda2`, whose format holds logical partitions. -/
def devSda2 : Device :=
  Device.mk "sda2" false 60 false false true true true true []

/-- The partitioned example disk `sda` itself. -/
def devSda : Device :=
  Device.mk "sda" false 100 true true true false false false [devSda1, devSda2]

/-- An unpartitioned example disk. -/
def devSdb : Device :=
  Device.mk "sdb" false 100 true false true false false false [devSda1]

/-- The example device tree for the partition-listing witnesses. -/
def sdaTree : List Device := [devSda, devSdb]

/-- C8: for every resolvable device, `get_device_partitions` returns the
empty list if the device is not partitioned (a disk reporting itself
partitioned with a supported format), and otherwise the names of exactly
those children that are partition devices and are not extended partitions
containing logical partitions. -/
theorem get_device_partitions_spec
    (tree : List Device) (device_name : String) (device : Device)
    (hres : get_device_by_name tree device_name = some device) :
    (is_device_partitioned_check device = false →
      get_device_partitions tree device_name = Except.ok []) ∧
    (is_device_partitioned_check device = true →
      get_device_partitions tree device_name =
        Except.ok ((device.children.filter (fun d =>
            d.is_partition_device && !(d.is_extended && d.format_logical_partitions))).map
          Device.name)) := by
  constructor
  · intro hpart
    unfold get_device_partitions
    rw [hres]
    simp [hpart]
  · intro hpart
    unfold get_device_partitions
    rw [hres]
    simp [hpart]

/-- C8 witness: on the partitioned disk `sda` with children `sda1` and the
extended `sda2` holding logical partitions, only `["sda1"]` is listed, and
the unpartitioned disk `sdb` yields the empty list. -/
theorem get_device_partitions_spec_witness :
    get_device_by_name sdaTree "sda" = some devSda ∧
    is_device_partitioned_check devSda = true ∧
    get_device_partitions sdaTree "sda" = Except.ok ["sda1"] ∧
    get_device_by_name sdaTree "sdb" = some devSdb ∧
    is_device_partitioned_check devSdb = false ∧
    get_device_partitions sdaTree "sdb" = Except.ok [] :=
  ⟨rfl, rfl,
    ((get_device_partitions_spec sdaTree "sda" devSda rfl).2 rfl).trans rfl,
    rfl, rfl,
    (get_device_partitions_spec sdaTree "sdb" devSdb rfl).1 rfl⟩

/-- C7: for every module state and configuration being written, exporting
writes an empty string into the configuration's passphrase field, whatever
passphrase the current request stores; the stored passphrase value never
appears in the exported configuration. -/
theorem setup_kickstart_never_exports_passphrase
    (s : ModuleState) (a : AutopartData) :
    (setup_kickstart s a).passphrase = "" := rfl

/-- C9: `set_passphrase p` replaces the module's request with a whole new
request whose passphrase equals `p` and all of whose other fields equal the
previous request's fields, leaves the enabled flag alone, and emits exactly
one request-changed notification (the full-snapshot replacement goes through
`set_request`). -/
theorem set_passphrase_replaces_whole_request (s : ModuleState) (p : String) :
    (set_passphrase s p).1.request = { s.request with passphrase := p } ∧
    (set_passphrase s p).1.request.passphrase = p ∧
    (set_passphrase s p).1.request.partitioning_scheme = s.request.partitioning_scheme ∧
    (set_passphrase s p).1.request.file_system_type = s.request.file_system_type ∧
    (set_passphrase s p).1.request.excluded_mount_points = s.request.excluded_mount_points ∧
    (set_passphrase s p).1.request.encrypted = s.request.encrypted ∧
    (set_passphrase s p).1.request.cipher = s.request.cipher ∧
    (set_passphrase s p).1.request.luks_version = s.request.luks_version ∧
    (set_passphrase s p).1.request.pbkdf = s.request.pbkdf ∧
    (set_passphrase s p).1.request.pbkdf_memory = s.request.pbkdf_memory ∧
    (set_passphrase s p).1.request.pbkdf_time = s.request.pbkdf_time ∧
    (set_passphrase s p).1.request.pbkdf_iterations = s.request.pbkdf_iterations ∧
    (set_passphrase s p).1.request.escrow_certificate = s.request.escrow_certificate ∧
    (set_passphrase s p).1.request.backup_passphrase_enabled =
      s.request.backup_passphrase_enabled ∧
    (set_passphrase s p).1.enabled = s.enabled ∧
    (set_passphrase s p).2 = [ModuleEvent.requestChanged] :=
  ⟨rfl, rfl, rfl, rfl, rfl, rfl, rfl, rfl, rfl, rfl, rfl, rfl, rfl, rfl, rfl, rfl⟩

/-- C10: every call to `set_enabled` or `set_request` emits exactly one
corresponding change notification, with no change detection: in particular
this also holds when the new value equals the value already stored. -/
theorem setters_always_emit_one_notification :
    (∀ (s : ModuleState) (e : Bool),
      (set_enabled s e).2 = [ModuleEvent.enabledChanged]) ∧
    (∀ (s : ModuleState) (r : PartitioningRequest),
      (set_request s r).2 = [ModuleEvent.requestChanged]) ∧
    (∀ s : ModuleState, (set_enabled s s.enabled).2.length = 1) ∧
    (∀ s : ModuleState, (set_request s s.request).2.length = 1) :=
  ⟨fun _ _ => rfl, fun _ _ => rfl, fun _ => rfl, fun _ => rfl⟩

/-- All encryption-related request fields other than the passphrase hold
their type defaults. -/
def encryption_fields_default (r : PartitioningRequest) : Prop :=
  r.cipher = "" ∧ r.luks_version = "" ∧ r.pbkdf = "" ∧ r.pbkdf_memory = 0 ∧
  r.pbkdf_time = 0 ∧ r.pbkdf_iterations = 0 ∧ r.escrow_certificate = "" ∧
  r.backup_passphrase_enabled = false

/-- A module state whose request is not encrypted but stores a cipher: the
cipher is exported unconditionally, yet dropped by the import because the
configuration is not encrypted, so re-exporting loses it. -/
def roundtripCounterexampleState : ModuleState :=
  { enabled := false
    request := { PartitioningRequest.fresh with cipher := "aes-xts-plain64" } }

/-- C3 counterexample: for the unencrypted request storing a cipher,
export-import-export does not reproduce the first export (the cipher field
comes back empty), so the round trip does not hold for every request. -/
theorem export_import_export_roundtrip_counterexample :
    export_to_config (import_from_config (export_to_config roundtripCounterexampleState)) ≠
      export_to_config roundtripCounterexampleState := by decide

theorem export_to_config_eq (s : ModuleState) :
    export_to_config s =
      { autopart := s.enabled
        type := if s.request.partitioning_scheme = DEFAULT_AUTOPART_TYPE then none
          else some s.request.partitioning_scheme
        fstype := s.request.file_system_type
        noboot := s.request.excluded_mount_points.contains "/boot"
        nohome := s.request.excluded_mount_points.contains "/home"
        noswap := s.request.excluded_mount_points.contains "swap"
        encrypted := s.request.encrypted
        passphrase := ""
        cipher := s.request.cipher
        luks_version := s.request.luks_version
        pbkdf := s.request.pbkdf
        pbkdf_memory := s.request.pbkdf_memory
        pbkdf_time := s.request.pbkdf_time
        pbkdf_iterations := s.request.pbkdf_iterations
        escrowcert := s.request.escrow_certificate
        backuppassphrase := s.request.backup_passphrase_enabled } := by
  by_cases hsch : s.request.partitioning_scheme = DEFAULT_AUTOPART_TYPE <;>
    simp [export_to_config, setup_kickstart, AutopartData.fresh, hsch]

theorem request_from_kickstart_eq (a : AutopartData) :
    request_from_kickstart a =
      { partitioning_scheme := a.type.getD DEFAULT_AUTOPART_TYPE
        file_system_type := a.fstype
        excluded_mount_points :=
          (if a.noboot then ["/boot"] else []) ++ (if a.nohome then ["/home"] else []) ++
            (if a.noswap then ["swap"] else [])
        encrypted := a.encrypted
        passphrase := if a.encrypted then a.passphrase else ""
        cipher := if a.encrypted then a.cipher else ""
        luks_version := if a.encrypted then a.luks_version else ""
        pbkdf := if a.encrypted then a.pbkdf else ""
        pbkdf_memory := if a.encrypted then a.pbkdf_memory else 0
        pbkdf_time := if a.encrypted then a.pbkdf_time else 0
        pbkdf_iterations := if a.encrypted then a.pbkdf_iterations else 0
        escrow_certificate := if a.encrypted then a.escrowcert else ""
        backup_passphrase_enabled := if a.encrypted then a.backuppassphrase else false } := by
  unfold request_from_kickstart
  cases hty : a.type <;>
    by_cases hfs : a.fstype = "" <;>
    cases hnb : a.noboot <;>
    cases hnh : a.nohome <;>
    cases hns : a.noswap <;>
    cases henc : a.encrypted <;>
    simp [hty, hfs, hnb, hnh, hns, henc, PartitioningRequest.fresh]

theorem import_from_config_eq (a : AutopartData) :
    import_from_config a =
      { enabled := a.autopart, request := request_from_kickstart a } := rfl

theorem contains_boot_of_rebuilt (b h s : Bool) :
    ((if b then ["/boot"] else []) ++ (if h then ["/home"] else []) ++
      (if s then ["swap"] else [])).contains "/boot" = b := by
  cases b <;> cases h <;> cases s <;> rfl

theorem contains_home_of_rebuilt (b h s : Bool) :
    ((if b then ["/boot"] else []) ++ (if h then ["/home"] else []) ++
      (if s then ["swap"] else [])).contains "/home" = h := by
  cases b <;> cases h <;> cases s <;> rfl

theorem contains_swap_of_rebuilt (b h s : Bool) :
    ((if b then ["/boot"] else []) ++ (if h then ["/home"] else []) ++
      (if s then ["swap"] else [])).contains "swap" = s := by
  cases b <;> cases h <;> cases s <;> rfl

/-- C3 (amended): for every module state whose request is encrypted, or whose
encryption-related fields (other than the passphrase) are at their type
defaults when it is not encrypted, export-import-export yields a
configuration field-wise equal to the first export, and the passphrase field
is empty in every exported configuration. -/
theorem export_import_export_roundtrip (s : ModuleState)
    (h : s.request.encrypted = true ∨ encryption_fields_default s.request) :
    export_to_config (import_from_config (export_to_config s)) = export_to_config s ∧
    (export_to_config s).passphrase = "" ∧
    (export_to_config (import_from_config (export_to_config s))).passphrase = "" := by
  refine ⟨?_, rfl, rfl⟩
  simp only [export_to_config_eq, import_from_config_eq, request_from_kickstart_eq]
  rcases h with henc | hdef
  · by_cases hsch : s.request.partitioning_scheme = DEFAULT_AUTOPART_TYPE <;>
      simp [hsch, henc, contains_boot_of_rebuilt, contains_home_of_rebuilt,
        contains_swap_of_rebuilt]
  · obtain ⟨h1, h2, h3, h4, h5, h6, h7, h8⟩ := hdef
    by_cases hsch : s.request.partitioning_scheme = DEFAULT_AUTOPART_TYPE <;>
      cases henc : s.request.encrypted <;>
      simp [hsch, henc, h1, h2, h3, h4, h5, h6, h7, h8,
        contains_boot_of_rebuilt, contains_home_of_rebuilt, contains_swap_of_rebuilt]

/-- An encrypted module state exercising every request field, used as the
round-trip witness input. -/
def roundtripWitnessState : ModuleState :=
  { enabled := true
    request :=
      { partitioning_scheme := 0
        file_system_type := "xfs"
        excluded_mount_points := ["/home", "swap"]
        encrypted := true
        passphrase := "secret"
        cipher := "aes-xts-plain64"
        luks_version := "luks2"
        pbkdf := "argon2id"
        pbkdf_memory := 1024
        pbkdf_time := 500
        pbkdf_iterations := 0
        escrow_certificate := "file:cert.pem"
        backup_passphrase_enabled := true } }

/-- C3 witness: on the encrypted example state, export-import-export
reproduces the first export exactly, and both exports carry an empty
passphrase even though the stored passphrase is `secret`. -/
theorem export_import_export_roundtrip_witness :
    (roundtripWitnessState.request.encrypted = true ∨
      encryption_fields_default roundtripWitnessState.request) ∧
    (export_to_config (import_from_config (export_to_config roundtripWitnessState)) =
        export_to_config roundtripWitnessState ∧
      (export_to_config roundtripWitnessState).passphrase = "" ∧
      (export_to_config
        (import_from_config (export_to_config roundtripWitnessState))).passphrase = "") :=
  ⟨Or.inl rfl, export_import_export_roundtrip roundtripWitnessState (Or.inl rfl)⟩
